import Mathlib

/-!
Verification of the generation-validation-cache pipeline of
src/utils/aiDataGenerator.ts (repository huangyingting/docgen).

The TypeScript source is shallowly embedded: JSON values are an inductive
type, the chat-completion endpoint is an oracle parameter giving the raw
outcome of each attempt, the JS runtime JSON parser and URL parser are
function parameters, and the stateful result cache is threaded explicitly.
The source file contains the module twice (an accidental duplication, lines
1088 onwards); the first copy (lines 1-1087), whose line numbers the claims
cite, is the one embedded here.

The cache module (src/utils/cache.ts), the Zod schemas
(src/utils/zodSchemas.ts) and the JSON-schema helpers
(src/utils/jsonSchemaGenerator.ts) are imported by aiDataGenerator.ts but
are not among the provided sources; their definitions below are modelled
from the specification and say so in their doc comments.  Schema validators
appear as oracle parameters of type Json -> ValidationOutcome.
-/

namespace DocGen

/-- JSON values as produced by JSON.parse. -/
inductive Json where
  | null
  | bool (b : Bool)
  | num (n : Int)
  | str (s : String)
  | arr (elems : List Json)
  | obj (fields : List (String × Json))

/-- The JavaScript typeof operator on JSON.parse results: arrays and null
both have typeof "object". -/
def jsTypeof : Json → String
  | .null => "object"
  | .bool _ => "boolean"
  | .num _ => "number"
  | .str _ => "string"
  | .arr _ => "object"
  | .obj _ => "object"

/-- Whether a JSON value is the null literal (the parsedData === null test). -/
def Json.isNull : Json → Bool
  | .null => true
  | _ => false

/-- Whether a JSON value is an object or an array: the values that pass the
source's typeof-object and non-null test. -/
def isObjectOrArray : Json → Bool
  | .obj _ => true
  | .arr _ => true
  | _ => false

/-- The JavaScript String.prototype.trim operation: strip leading and
trailing whitespace.  Defined structurally over the character list so that
it evaluates on concrete inputs. -/
def jsTrim (s : String) : String :=
  ⟨((s.data.dropWhile Char.isWhitespace).reverse.dropWhile Char.isWhitespace).reverse⟩

/-- Raw outcome of one chat-completion request as seen inside the retry loop
of generateDataWithAI: the call can throw, return an empty choices list, or
return a first choice whose message content may be null. -/
inductive AttemptResult where
  | transportError (msg : String)
  | noChoices
  | response (content : Option String)

/-- Body of one iteration of the retry loop of generateDataWithAI
(aiDataGenerator.ts lines 116-155): unwrap the completion, reject a missing
or blank body, JSON.parse the content (the parameter parse is the JS runtime
parser) and reject parsed values failing the
typeof parsedData !== 'object' || parsedData === null check. -/
def attemptEval (r : AttemptResult) (parse : String → Option Json) :
    Except String Json :=
  match r with
  | .transportError msg => .error msg
  | .noChoices => .error "No response from Azure OpenAI"
  | .response none => .error "Empty response from Azure OpenAI"
  | .response (some content) =>
    if jsTrim content = "" then .error "Empty response from Azure OpenAI"
    else
      match parse content with
      | none => .error "Unexpected token in JSON"
      | some parsedData =>
        if jsTypeof parsedData != "object" || parsedData.isNull then
          .error ("Invalid JSON structure: expected object, got " ++ jsTypeof parsedData)
        else .ok parsedData

/-- Observable outcome of a generateDataWithAI call: the returned or thrown
value, the number of attempts made, and the list of backoff waits (in
milliseconds) actually performed, in order. -/
structure InvokeResult where
  value : Except String Json
  attempts : Nat
  waits : List Nat

/-- Retry loop of generateDataWithAI (lines 114-173): attempt counts up from
0; remaining is the number of loop iterations left (retries - attempt).  A
failed attempt with attempt < retries - 1 waits 1000 * (attempt + 1) ms and
continues; the last attempt's error is rethrown without waiting.  When the
loop never runs the generic exhaustion error is thrown (line 175). -/
def invokeAux (endpoint : Nat → AttemptResult) (parse : String → Option Json)
    (retries : Nat) (attempt : Nat) (lastError : Option String) :
    Nat → InvokeResult
  | 0 => ⟨.error (lastError.getD "Failed to generate medical data after all retries"), 0, []⟩
  | remaining + 1 =>
    match attemptEval (endpoint attempt) parse with
    | .ok parsedData => ⟨.ok parsedData, 1, []⟩
    | .error e =>
      if attempt < retries - 1 then
        let waitTime := 1000 * (attempt + 1)
        let rest := invokeAux endpoint parse retries (attempt + 1) (some e) remaining
        ⟨rest.value, rest.attempts + 1, waitTime :: rest.waits⟩
      else ⟨.error e, 1, []⟩

/-- generateDataWithAI (lines 102-176): run up to retries attempts. -/
def generateDataWithAI (endpoint : Nat → AttemptResult)
    (parse : String → Option Json) (retries : Nat := 3) : InvokeResult :=
  invokeAux endpoint parse retries 0 none retries

/-- Modelled from the spec: cache configuration of src/utils/cache.ts, which
is not among the provided sources (spec sections 4.1 and 6): an enabled flag
and a TTL in milliseconds.  The persistence directory does not affect the
embedded semantics. -/
structure CacheConfig where
  enabled : Bool
  ttl : Nat

/-- Modelled from the spec: a stored entry carries the payload and its write
timestamp (spec section 3, CacheEntry). -/
structure CacheEntry (α : Type) where
  payload : α
  storedAt : Nat

/-- Modelled from the spec: the store maps keys to entries; a write for an
existing key fully replaces the old entry, modelled by prepending together
with first-match lookup. -/
abbrev CacheStore (α : Type) : Type := List (String × CacheEntry α)

/-- Modelled from the spec: generateCacheKey of src/utils/cache.ts is a
deterministic function of the generator name and the ordered parameter list
(spec sections 4.1 and 8); parameters are pre-serialized to strings. -/
def generateCacheKey (name : String) (params : List String) : String :=
  name ++ String.join (params.map (fun p => "|" ++ p))

/-- Modelled from the spec: getFromCache of src/utils/cache.ts is a forced
miss when caching is disabled, and an entry with now - storedAt > ttl is
treated as a miss (spec section 4.1). -/
def getFromCache (cfg : CacheConfig) (store : CacheStore α) (key : String)
    (now : Nat) : Option α :=
  if cfg.enabled then
    match List.lookup key store with
    | some e => if now - e.storedAt > cfg.ttl then none else some e.payload
    | none => none
  else none

/-- Modelled from the spec: saveToCache of src/utils/cache.ts is a no-op when
caching is disabled, otherwise replaces the entry for the key and records the
write time (spec section 4.1). -/
def saveToCache (cfg : CacheConfig) (store : CacheStore α) (key : String)
    (v : α) (now : Nat) : CacheStore α :=
  if cfg.enabled then (key, ⟨v, now⟩) :: store else store

/-- Modelled from the spec: outcome of validateWithSchema of
src/utils/jsonSchemaGenerator.ts, which is not among the provided sources
(spec section 3, ValidationOutcome): a typed value or an ordered list of
(fieldPath, message) errors. -/
inductive ValidationOutcome (α : Type) where
  | success (data : α)
  | failure (errors : List (String × String))

/-- Modelled from the spec: formatZodErrors of
src/utils/jsonSchemaGenerator.ts renders each (fieldPath, message) pair as a
human-readable string (spec section 4.3). -/
def formatZodErrors (errors : List (String × String)) : List String :=
  errors.map (fun e => e.1 ++ ": " ++ e.2)

/-- US address value as used by the orchestrators (zodSchemas.ts is not
among the provided sources; fields follow their uses in aiDataGenerator.ts). -/
structure Address where
  street : String
  city : String
  state : String
  zipCode : String

/-- Contact record of an Individual; only the phone is consumed. -/
structure Contact where
  phone : String

/-- Fields of the Individual entity that the embedded orchestrators consume. -/
structure Individual where
  id : String
  firstName : String
  lastName : String
  dateOfBirth : String
  gender : String
  address : Address
  contact : Contact

/-- InsuranceInfo fields touched by the subscriber override of
generateInsuranceInfoWithAI (lines 440-450); the remaining validated fields
are kept opaque in rest. -/
structure InsuranceInfo where
  subscriberFirstName : String
  subscriberLastName : String
  subscriberDOB : String
  subscriberGender : String
  address : Address
  phone : String
  rest : Json

/-- LabReport fields touched by the post-validation fixup of
generateLabReportsWithAI (lines 679-682); the rest is opaque. -/
structure LabReport where
  testType : String
  testName : String
  rest : Json

/-- Azure endpoint configuration (lines 51-56); each field may be absent at
runtime, modelled by none. -/
structure AzureOpenAIConfig where
  endpoint : Option String
  apiKey : Option String
  deploymentName : Option String
  apiVersion : Option String

/-- JavaScript falsiness of a possibly-absent string: undefined and the
empty string are falsy. -/
def jsFalsy : Option String → Bool
  | none => true
  | some s => s == ""

/-- The blank-field test of validateAzureConfig:
!field || !field.trim(). -/
def isBlankField (f : Option String) : Bool :=
  jsFalsy f || jsFalsy (f.map jsTrim)

/-- Return value of validateAzureConfig. -/
structure ValidateResult where
  valid : Bool
  error : Option String

/-- validateAzureConfig (lines 61-82).  The well-formedness test
new URL(endpoint) performed by the JS runtime is the parameter isValidURL. -/
def validateAzureConfig (isValidURL : String → Bool)
    (config : AzureOpenAIConfig) : ValidateResult :=
  if isBlankField config.endpoint then ⟨false, some "Endpoint is required"⟩
  else if isBlankField config.apiKey then ⟨false, some "API Key is required"⟩
  else if isBlankField config.deploymentName then
    ⟨false, some "Deployment Name is required"⟩
  else if isValidURL (config.endpoint.getD "") then ⟨true, none⟩
  else ⟨false, some "Invalid endpoint URL format"⟩

/-- Constructor arguments passed to the AzureOpenAI client. -/
structure AzureClient where
  endpoint : String
  apiKey : String
  apiVersion : String
  deployment : String

/-- createAzureOpenAIClient (lines 87-97): apiVersion falls back to the
fixed default when falsy. -/
def createAzureOpenAIClient (config : AzureOpenAIConfig) : AzureClient :=
  let apiVersion := if jsFalsy config.apiVersion then "2025-04-01-preview"
                    else config.apiVersion.getD ""
  { endpoint := config.endpoint.getD ""
    apiKey := config.apiKey.getD ""
    apiVersion := apiVersion
    deployment := config.deploymentName.getD "" }

/-- Observable outcome of a single-document orchestrator call: the returned
or thrown value, how many times the Model Invoker (generateDataWithAI) was
called, how many times the Schema Validator was called, and the cache store
after the call. -/
structure OrchResult (α : Type) where
  result : Except String α
  invokerCalls : Nat
  validatorCalls : Nat
  store : CacheStore α

/-- generateIndividualWithAI (lines 190-269): cache check, optional-config
guard, model invocation, Zod validation, cache write.  The IndividualSchema
validator is the oracle parameter validate; prompt text only feeds the
external model and is omitted. -/
def generateIndividualWithAI (endpoint : Nat → AttemptResult)
    (parse : String → Option Json) (validate : Json → ValidationOutcome α)
    (config : Option AzureOpenAIConfig) (cacheConfig : CacheConfig)
    (store : CacheStore α) (now : Nat) : OrchResult α :=
  let cacheKey := generateCacheKey "generateIndividual" []
  match getFromCache cacheConfig store cacheKey now with
  | some cached => ⟨.ok cached, 0, 0, store⟩
  | none =>
    match config with
    | none =>
      ⟨.error "Patient data generation failed: Azure OpenAI configuration is required for AI data generation",
        0, 0, store⟩
    | some _ =>
      match (generateDataWithAI endpoint parse 3).value with
      | .error e => ⟨.error ("Patient data generation failed: " ++ e), 1, 0, store⟩
      | .ok data =>
        match validate data with
        | .failure errors =>
          ⟨.error ("Patient data generation failed: AI generated invalid patient data: "
              ++ String.intercalate ", " (formatZodErrors errors)), 1, 1, store⟩
        | .success validatedData =>
          ⟨.ok validatedData, 1, 1, saveToCache cacheConfig store cacheKey validatedData now⟩

/-- Observable outcome of generateInsuranceInfoWithAI; randRest is what is
left of the random stream, so that rand.length - randRest.length counts the
Math.random() draws consumed. -/
structure InsOrchResult where
  result : Except String InsuranceInfo
  invokerCalls : Nat
  validatorCalls : Nat
  store : CacheStore InsuranceInfo
  randRest : List Nat

/-- Serialization of a boolean cache-key parameter. -/
def boolParam (b : Bool) : String := if b then "true" else "false"

/-- The subscriber override block of generateInsuranceInfoWithAI (lines
441-449): the five subscriber-identifying fields are forced to the
individual's values. -/
def overrideSubscriber (individual : Individual) (v : InsuranceInfo) :
    InsuranceInfo :=
  { v with subscriberFirstName := individual.firstName
           subscriberLastName := individual.lastName
           subscriberDOB := individual.dateOfBirth
           subscriberGender := individual.gender
           address := individual.address
           phone := individual.contact.phone }

/-- generateInsuranceInfoWithAI (lines 365-462).  Math.random() is modelled
by consuming the head of the stream rand, scaled to 0..999, so the
Math.random() < 0.7 test becomes head < 700; the draw is taken right after
the cache miss (line 382), before the invocation. -/
def generateInsuranceInfoWithAI (endpoint : Nat → AttemptResult)
    (parse : String → Option Json)
    (validate : Json → ValidationOutcome InsuranceInfo)
    (individual : Individual) (includeSecondary : Bool)
    (cacheConfig : CacheConfig) (store : CacheStore InsuranceInfo) (now : Nat)
    (rand : List Nat) : InsOrchResult :=
  let cacheKey := generateCacheKey "generateInsuranceInfo"
      [individual.id, boolParam includeSecondary]
  match getFromCache cacheConfig store cacheKey now with
  | some cached => ⟨.ok cached, 0, 0, store, rand⟩
  | none =>
    let useIndividualAsSubscriber : Bool := rand.headD 0 < 700
    let randRest := rand.tail
    match (generateDataWithAI endpoint parse 3).value with
    | .error e =>
      ⟨.error ("Insurance data generation failed: " ++ e), 1, 0, store, randRest⟩
    | .ok data =>
      match validate data with
      | .failure errors =>
        ⟨.error ("Insurance data generation failed: AI generated invalid insurance data: "
            ++ String.intercalate ", " (formatZodErrors errors)), 1, 1, store, randRest⟩
      | .success validated =>
        let validatedData :=
          if useIndividualAsSubscriber then overrideSubscriber individual validated
          else validated
        ⟨.ok validatedData, 1, 1,
          saveToCache cacheConfig store cacheKey validatedData now, randRest⟩

/-- Observable outcome of generateClaimInfoWithAI: the payload returned and
cached is the raw parsed Json (lines 556-561), so the store holds Json. -/
structure ClaimOrchResult where
  result : Except String Json
  invokerCalls : Nat
  validatorCalls : Nat
  store : CacheStore Json

/-- generateClaimInfoWithAI (lines 475-568): after a successful validation
the raw parsed data, not validation.data, is cached and returned. -/
def generateClaimInfoWithAI (endpoint : Nat → AttemptResult)
    (parse : String → Option Json) (validate : Json → ValidationOutcome α)
    (individual : Individual) (cacheConfig : CacheConfig)
    (store : CacheStore Json) (now : Nat) : ClaimOrchResult :=
  let cacheKey := generateCacheKey "generateClaimInfo" [individual.id]
  match getFromCache cacheConfig store cacheKey now with
  | some cached => ⟨.ok cached, 0, 0, store⟩
  | none =>
    match (generateDataWithAI endpoint parse 3).value with
    | .error e => ⟨.error ("CMS-1500 data generation failed: " ++ e), 1, 0, store⟩
    | .ok data =>
      match validate data with
      | .failure errors =>
        ⟨.error ("CMS-1500 data generation failed: AI generated invalid CMS-1500 claim data: "
            ++ String.intercalate ", " (formatZodErrors errors)), 1, 1, store⟩
      | .success _ =>
        ⟨.ok data, 1, 1, saveToCache cacheConfig store cacheKey data now⟩

/-- Observable outcome of a batch orchestrator call: the collected reports
(in production order), invoker and validator call counts, and the final
cache store. -/
structure BatchState (α : Type) where
  reports : List α
  invokerCalls : Nat
  validatorCalls : Nat
  store : CacheStore α

/-- Post-validation fixup of generateLabReportsWithAI (lines 679-682): force
testType when both testType and testName are falsy. -/
def fixTestType (testType : String) (r : LabReport) : LabReport :=
  if r.testType == "" && r.testName == "" then { r with testType := testType }
  else r

/-- Loop body of generateLabReportsWithAI (lines 609-694), one recursive
step per requested test type.  i is the loop index; endpoints i is the
endpoint behaviour during item i's invocation.  A per-item invoker failure
or validation failure is skipped (continue), everything else is cached and
pushed. -/
def labLoop (endpoints : Nat → Nat → AttemptResult)
    (parse : String → Option Json)
    (validate : Json → ValidationOutcome LabReport)
    (orderingPhysician : String) (cacheConfig : CacheConfig) (now : Nat) :
    List String → Nat → CacheStore LabReport → BatchState LabReport
  | [], _, store => ⟨[], 0, 0, store⟩
  | testType :: restTypes, i, store =>
    let cacheKey := generateCacheKey "generateLabReport" [testType, orderingPhysician]
    match getFromCache cacheConfig store cacheKey now with
    | some cached =>
      let s := labLoop endpoints parse validate orderingPhysician cacheConfig now
          restTypes (i + 1) store
      ⟨cached :: s.reports, s.invokerCalls, s.validatorCalls, s.store⟩
    | none =>
      match (generateDataWithAI (endpoints i) parse 3).value with
      | .error _ =>
        let s := labLoop endpoints parse validate orderingPhysician cacheConfig now
            restTypes (i + 1) store
        ⟨s.reports, s.invokerCalls + 1, s.validatorCalls, s.store⟩
      | .ok data =>
        match validate data with
        | .failure _ =>
          let s := labLoop endpoints parse validate orderingPhysician cacheConfig now
              restTypes (i + 1) store
          ⟨s.reports, s.invokerCalls + 1, s.validatorCalls + 1, s.store⟩
        | .success validatedReport =>
          let fixedReport := fixTestType testType validatedReport
          let store2 := saveToCache cacheConfig store cacheKey fixedReport now
          let s := labLoop endpoints parse validate orderingPhysician cacheConfig now
              restTypes (i + 1) store2
          ⟨fixedReport :: s.reports, s.invokerCalls + 1, s.validatorCalls + 1, s.store⟩

/-- generateLabReportsWithAI (lines 580-699): iterate the loop body over the
requested test types, starting at index 0. -/
def generateLabReportsWithAI (endpoints : Nat → Nat → AttemptResult)
    (parse : String → Option Json)
    (validate : Json → ValidationOutcome LabReport) (testTypes : List String)
    (orderingPhysician : String) (cacheConfig : CacheConfig)
    (store : CacheStore LabReport) (now : Nat) : BatchState LabReport :=
  labLoop endpoints parse validate orderingPhysician cacheConfig now testTypes 0 store

/-- Per-item outcomes of the lab-report batch: one slot per requested test
type in request order, some r when the item produced r, none when the item
was dropped; the cache store is threaded exactly as in labLoop. -/
def labSlots (endpoints : Nat → Nat → AttemptResult)
    (parse : String → Option Json)
    (validate : Json → ValidationOutcome LabReport)
    (orderingPhysician : String) (cacheConfig : CacheConfig) (now : Nat) :
    List String → Nat → CacheStore LabReport → List (Option LabReport)
  | [], _, _ => []
  | testType :: restTypes, i, store =>
    let cacheKey := generateCacheKey "generateLabReport" [testType, orderingPhysician]
    match getFromCache cacheConfig store cacheKey now with
    | some cached =>
      some cached :: labSlots endpoints parse validate orderingPhysician cacheConfig now
        restTypes (i + 1) store
    | none =>
      match (generateDataWithAI (endpoints i) parse 3).value with
      | .error _ =>
        none :: labSlots endpoints parse validate orderingPhysician cacheConfig now
          restTypes (i + 1) store
      | .ok data =>
        match validate data with
        | .failure _ =>
          none :: labSlots endpoints parse validate orderingPhysician cacheConfig now
            restTypes (i + 1) store
        | .success validatedReport =>
          let fixedReport := fixTestType testType validatedReport
          some fixedReport :: labSlots endpoints parse validate orderingPhysician
            cacheConfig now restTypes (i + 1)
            (saveToCache cacheConfig store cacheKey fixedReport now)

/-- Loop body of generateVisitReportsWithAI (lines 721-805), one recursive
step per remaining visit; i is the visit index used in the cache key.  β is
the validated VisitReport type. -/
def visitLoop (endpoints : Nat → Nat → AttemptResult)
    (parse : String → Option Json) (validate : Json → ValidationOutcome β)
    (providerName : String) (cacheConfig : CacheConfig) (now : Nat) :
    Nat → Nat → CacheStore β → BatchState β
  | 0, _, store => ⟨[], 0, 0, store⟩
  | remaining + 1, i, store =>
    let cacheKey := generateCacheKey "generateVisitReport" [toString i, providerName]
    match getFromCache cacheConfig store cacheKey now with
    | some cached =>
      let s := visitLoop endpoints parse validate providerName cacheConfig now
          remaining (i + 1) store
      ⟨cached :: s.reports, s.invokerCalls, s.validatorCalls, s.store⟩
    | none =>
      match (generateDataWithAI (endpoints i) parse 3).value with
      | .error _ =>
        let s := visitLoop endpoints parse validate providerName cacheConfig now
            remaining (i + 1) store
        ⟨s.reports, s.invokerCalls + 1, s.validatorCalls, s.store⟩
      | .ok data =>
        match validate data with
        | .failure _ =>
          let s := visitLoop endpoints parse validate providerName cacheConfig now
              remaining (i + 1) store
          ⟨s.reports, s.invokerCalls + 1, s.validatorCalls + 1, s.store⟩
        | .success validatedData =>
          let store2 := saveToCache cacheConfig store cacheKey validatedData now
          let s := visitLoop endpoints parse validate providerName cacheConfig now
              remaining (i + 1) store2
          ⟨validatedData :: s.reports, s.invokerCalls + 1, s.validatorCalls + 1, s.store⟩

/-- generateVisitReportsWithAI (lines 711-805): iterate the loop body
numberOfVisits times starting at visit index 0. -/
def generateVisitReportsWithAI (endpoints : Nat → Nat → AttemptResult)
    (parse : String → Option Json) (validate : Json → ValidationOutcome β)
    (numberOfVisits : Nat) (providerName : String) (cacheConfig : CacheConfig)
    (store : CacheStore β) (now : Nat) : BatchState β :=
  visitLoop endpoints parse validate providerName cacheConfig now numberOfVisits 0 store

/-- Per-item outcomes of the visit-report batch, one slot per visit in
request order, threading the store exactly as in visitLoop. -/
def visitSlots (endpoints : Nat → Nat → AttemptResult)
    (parse : String → Option Json) (validate : Json → ValidationOutcome β)
    (providerName : String) (cacheConfig : CacheConfig) (now : Nat) :
    Nat → Nat → CacheStore β → List (Option β)
  | 0, _, _ => []
  | remaining + 1, i, store =>
    let cacheKey := generateCacheKey "generateVisitReport" [toString i, providerName]
    match getFromCache cacheConfig store cacheKey now with
    | some cached =>
      some cached :: visitSlots endpoints parse validate providerName cacheConfig now
        remaining (i + 1) store
    | none =>
      match (generateDataWithAI (endpoints i) parse 3).value with
      | .error _ =>
        none :: visitSlots endpoints parse validate providerName cacheConfig now
          remaining (i + 1) store
      | .ok data =>
        match validate data with
        | .failure _ =>
          none :: visitSlots endpoints parse validate providerName cacheConfig now
            remaining (i + 1) store
        | .success validatedData =>
          some validatedData :: visitSlots endpoints parse validate providerName
            cacheConfig now remaining (i + 1)
            (saveToCache cacheConfig store cacheKey validatedData now)

/-! Concrete stubs and sample values used by the witness theorems below. -/

/-- Endpoint stub whose every attempt throws a transport error. -/
def endpointBoom : Nat → AttemptResult := fun _ => .transportError "boom"

/-- Parser stub that recognizes no input. -/
def parseNone : String → Option Json := fun _ => none

/-- Endpoint stub always answering with the body consisting of an empty
JSON array. -/
def endpointArrBody : Nat → AttemptResult := fun _ => .response (some "[]")

/-- Endpoint stub always answering with an empty JSON object body. -/
def endpointObjBody : Nat → AttemptResult := fun _ => .response (some "{}")

/-- Per-item endpoint stub always answering with an empty JSON object body. -/
def endpointsObjBody : Nat → Nat → AttemptResult := fun _ _ => .response (some "{}")

/-- Parser stub recognizing the two concrete bodies used by the witnesses. -/
def parseSample : String → Option Json := fun s =>
  if s = "[]" then some (.arr [])
  else if s = "{}" then some (.obj [])
  else none

def addressSample : Address := ⟨"1 Main St", "Springfield", "IL", "62704"⟩

def individualSample : Individual :=
  ⟨"ind-1", "Jane", "Doe", "01/02/1990", "Female", addressSample, ⟨"(555) 555-0100"⟩⟩

def insuranceSample : InsuranceInfo :=
  ⟨"Alex", "Smith", "03/04/1985", "Male", ⟨"9 Oak Ave", "Dayton", "OH", "45402"⟩,
    "(555) 555-0199", .obj []⟩

def labReportSample : LabReport := ⟨"CBC", "Complete Blood Count", .obj []⟩

/-- Cache configuration with caching enabled and a one-hour TTL. -/
def cfgOn : CacheConfig := ⟨true, 3600000⟩

def acSample : AzureOpenAIConfig := ⟨some "https://example.test", some "key", some "dep", none⟩

/-- URL-wellformedness stub accepting every string. -/
def urlAlways : String → Bool := fun _ => true

def validateFailJson : Json → ValidationOutcome Json :=
  fun _ => .failure [("firstName", "Required")]

def validateOkString : Json → ValidationOutcome String := fun _ => .success "typed"

def validateFailLab : Json → ValidationOutcome LabReport :=
  fun _ => .failure [("results", "Required")]

def validateOkIns : Json → ValidationOutcome InsuranceInfo :=
  fun _ => .success insuranceSample

/-- Store holding a fresh cached Individual payload under the individual
generator's key. -/
def storeIndHit : CacheStore Json :=
  [(generateCacheKey "generateIndividual" [], ⟨Json.obj [], 0⟩)]

/-- Store holding a fresh cached lab report under the CBC item key. -/
def storeLabHit : CacheStore LabReport :=
  [(generateCacheKey "generateLabReport" ["CBC", "Dr. Lee"], ⟨labReportSample, 0⟩)]

/-! Helper lemmas. -/

/-- Reading back a key just written with caching enabled yields the written
payload: the fresh timestamp cannot be expired. -/
theorem getFromCache_saveToCache (cfg : CacheConfig) (store : CacheStore α)
    (key : String) (v : α) (now : Nat) (h : cfg.enabled = true) :
    getFromCache cfg (saveToCache cfg store key v now) key now = some v := by
  simp [getFromCache, saveToCache, h, List.lookup, Nat.sub_self]

/-- The blank test of validateAzureConfig on a present field is equivalent
to the trimmed string being empty. -/
theorem isBlankField_some (s : String) :
    isBlankField (some s) = true ↔ jsTrim s = "" := by
  simp only [isBlankField, jsFalsy, Option.map_some', Bool.or_eq_true, beq_iff_eq]
  constructor
  · rintro (rfl | h)
    · rfl
    · exact h
  · intro h
    exact Or.inr h

/-- The guard inside generateDataWithAI rejects a parsed value exactly when
it is neither an object nor an array. -/
theorem invoker_guard_iff (p : Json) :
    ((jsTypeof p != "object" || p.isNull) = false) ↔ isObjectOrArray p = true := by
  cases p <;> simp [jsTypeof, Json.isNull, isObjectOrArray]

/-! Claim theorems. -/

/-- C3: with maxAttempts = 3 and an endpoint that fails on every attempt,
exactly 3 attempts occur, the last observed error (that of 0-based attempt
2) is raised as the terminal failure, the wait after 0-based attempt i is
1000 * (i + 1) milliseconds, and no wait follows the final attempt: the
performed waits are exactly [1000, 2000]. -/
theorem C3_retry_bound_and_backoff (endpoint : Nat → AttemptResult)
    (parse : String → Option Json) (e : Nat → String)
    (hfail : ∀ i, attemptEval (endpoint i) parse = .error (e i)) :
    generateDataWithAI endpoint parse 3 = ⟨.error (e 2), 3, [1000, 2000]⟩ := by
  simp [generateDataWithAI, invokeAux, hfail 0, hfail 1, hfail 2]

/-- Witness for C3 at a concrete always-failing endpoint stub. -/
theorem C3_retry_bound_and_backoff_witness :
    generateDataWithAI endpointBoom parseNone 3 = ⟨.error "boom", 3, [1000, 2000]⟩ :=
  C3_retry_bound_and_backoff endpointBoom parseNone (fun _ => "boom") (fun _ => rfl)

/-- C2 counterexample: a response body "[]" parses to a JSON array, yet in
the source typeof [] is "object" and the array is not null, so the attempt
succeeds immediately and no retry is triggered, contrary to the claim that
an array body is treated as a failure. -/
theorem C2_array_body_accepted :
    attemptEval (AttemptResult.response (some "[]")) parseSample = .ok (Json.arr [])
    ∧ generateDataWithAI endpointArrBody parseSample 3 = ⟨.ok (Json.arr []), 1, []⟩ :=
  ⟨rfl, rfl⟩

/-- C2 (amended): an attempt succeeds with value j exactly when the response
body is present and non-blank and parses to a JSON value that is an object
or an array; scalars and null are failures, but a JSON array is accepted. -/
theorem C2_attempt_success_condition (r : AttemptResult)
    (parse : String → Option Json) (j : Json) :
    attemptEval r parse = .ok j ↔
      ∃ s, r = .response (some s) ∧ jsTrim s ≠ "" ∧ parse s = some j ∧
        isObjectOrArray j = true := by
  cases r with
  | transportError m => simp [attemptEval]
  | noChoices => simp [attemptEval]
  | response content =>
    cases content with
    | none => simp [attemptEval]
    | some s =>
      by_cases hs : jsTrim s = ""
      · simp [attemptEval, hs]
      · cases hp : parse s with
        | none => simp [attemptEval, hs, hp]
        | some p =>
          by_cases hguard : (jsTypeof p != "object" || p.isNull) = true
          · have hnotOA : ¬ isObjectOrArray p = true := by
              intro hOA
              rw [← invoker_guard_iff] at hOA
              rw [hOA] at hguard
              exact Bool.false_ne_true hguard
            simp only [attemptEval, hs, if_neg hs, hp, hguard, if_true]
            constructor
            · intro h
              exact absurd h (by simp)
            · rintro ⟨t, ht, -, hpt, hOA⟩
              obtain rfl : s = t := by
                injection ht with ht
                injection ht
              rw [hp] at hpt
              injection hpt with hpj
              exact absurd (hpj ▸ hOA) hnotOA
          · have hg : (jsTypeof p != "object" || p.isNull) = false :=
              Bool.eq_false_iff.mpr hguard
            have hOA : isObjectOrArray p = true := (invoker_guard_iff p).mp hg
            simp only [attemptEval, if_neg hs, hp, hg, Bool.false_eq_true, if_false]
            constructor
            · intro h
              injection h with h
              exact ⟨s, rfl, hs, by rw [hp, h], h ▸ hOA⟩
            · rintro ⟨t, ht, -, hpt, -⟩
              obtain rfl : s = t := by
                injection ht with ht
                injection ht
              rw [hp] at hpt
              injection hpt with hpj
              rw [hpj]

/-- C8: config validation reports valid exactly when the endpoint, the API
key and the deployment name are all present and non-blank and the endpoint
is a well-formed URL; and when apiVersion is absent, client construction
uses the fixed default version string. -/
theorem C8_config_validation (isValidURL : String → Bool)
    (config : AzureOpenAIConfig) :
    ((validateAzureConfig isValidURL config).valid = true ↔
      (∃ s, config.endpoint = some s ∧ jsTrim s ≠ "" ∧ isValidURL s = true) ∧
      (∃ k, config.apiKey = some k ∧ jsTrim k ≠ "") ∧
      (∃ d, config.deploymentName = some d ∧ jsTrim d ≠ ""))
    ∧ (config.apiVersion = none →
        (createAzureOpenAIClient config).apiVersion = "2025-04-01-preview") := by
  constructor
  · unfold validateAzureConfig
    split
    next hb =>
      simp only [show (false = true) = False by simp, false_iff]
      rintro ⟨⟨s, hep, hs, -⟩, -, -⟩
      rw [hep] at hb
      exact hs ((isBlankField_some s).mp hb)
    next hb1 =>
      split
      next hb =>
        simp only [show (false = true) = False by simp, false_iff]
        rintro ⟨-, ⟨k, hak, hk⟩, -⟩
        rw [hak] at hb
        exact hk ((isBlankField_some k).mp hb)
      next hb2 =>
        split
        next hb =>
          simp only [show (false = true) = False by simp, false_iff]
          rintro ⟨-, -, ⟨d, hdn, hd⟩⟩
          rw [hdn] at hb
          exact hd ((isBlankField_some d).mp hb)
        next hb3 =>
          obtain ⟨s, hep⟩ : ∃ s, config.endpoint = some s := by
            cases hc : config.endpoint with
            | none => rw [hc] at hb1; exact absurd rfl hb1
            | some s => exact ⟨s, rfl⟩
          obtain ⟨k, hak⟩ : ∃ k, config.apiKey = some k := by
            cases hc : config.apiKey with
            | none => rw [hc] at hb2; exact absurd rfl hb2
            | some k => exact ⟨k, rfl⟩
          obtain ⟨d, hdn⟩ : ∃ d, config.deploymentName = some d := by
            cases hc : config.deploymentName with
            | none => rw [hc] at hb3; exact absurd rfl hb3
            | some d => exact ⟨d, rfl⟩
          have hs : jsTrim s ≠ "" := by
            intro h
            exact hb1 (hep ▸ (isBlankField_some s).mpr h)
          have hk : jsTrim k ≠ "" := by
            intro h
            exact hb2 (hak ▸ (isBlankField_some k).mpr h)
          have hd : jsTrim d ≠ "" := by
            intro h
            exact hb3 (hdn ▸ (isBlankField_some d).mpr h)
          split
          next hurl =>
            simp only [show (true = true) = True by simp, true_iff]
            rw [hep] at hurl
            exact ⟨⟨s, hep, hs, hurl⟩, ⟨k, hak, hk⟩, ⟨d, hdn, hd⟩⟩
          next hurl =>
            simp only [show (false = true) = False by simp, false_iff]
            rintro ⟨⟨t, hept, -, hurlt⟩, -, -⟩
            rw [hep] at hept
            injection hept with hept
            rw [← hept] at hurlt
            rw [hep] at hurl
            exact hurl hurlt
  · intro hav
    simp [createAzureOpenAIClient, hav, jsFalsy]

/-- Witness for C8 at a concrete well-formed configuration with an absent
apiVersion. -/
theorem C8_config_validation_witness :
    (validateAzureConfig urlAlways acSample).valid = true
    ∧ (createAzureOpenAIClient acSample).apiVersion = "2025-04-01-preview" :=
  ⟨(C8_config_validation urlAlways acSample).1.mpr
      ⟨⟨"https://example.test", rfl, by decide, rfl⟩,
        ⟨"key", rfl, by decide⟩, ⟨"dep", rfl, by decide⟩⟩,
    (C8_config_validation urlAlways acSample).2 rfl⟩

/-- C1: if the Schema Validator reports failure on the value the Model
Invoker returned, the orchestrators never return that value and never write
it to the Cache Store: generateIndividualWithAI raises and leaves the store
untouched, and generateLabReportsWithAI drops the item and continues with
the remaining test types from the unchanged store. -/
theorem C1_validation_gate :
    (∀ (α : Type) (endpoint : Nat → AttemptResult) (parse : String → Option Json)
        (validate : Json → ValidationOutcome α) (ac : AzureOpenAIConfig)
        (cacheConfig : CacheConfig) (store : CacheStore α) (now : Nat)
        (data : Json) (errors : List (String × String)),
      getFromCache cacheConfig store (generateCacheKey "generateIndividual" []) now = none →
      (generateDataWithAI endpoint parse 3).value = .ok data →
      validate data = .failure errors →
      (generateIndividualWithAI endpoint parse validate (some ac) cacheConfig store now).result
          = .error ("Patient data generation failed: AI generated invalid patient data: "
              ++ String.intercalate ", " (formatZodErrors errors))
        ∧ (generateIndividualWithAI endpoint parse validate (some ac) cacheConfig store now).store
          = store)
    ∧
    (∀ (endpoints : Nat → Nat → AttemptResult) (parse : String → Option Json)
        (validate : Json → ValidationOutcome LabReport)
        (orderingPhysician : String) (cacheConfig : CacheConfig) (now : Nat)
        (testType : String) (restTypes : List String) (i : Nat)
        (store : CacheStore LabReport) (data : Json) (errors : List (String × String)),
      getFromCache cacheConfig store
          (generateCacheKey "generateLabReport" [testType, orderingPhysician]) now = none →
      (generateDataWithAI (endpoints i) parse 3).value = .ok data →
      validate data = .failure errors →
      (labLoop endpoints parse validate orderingPhysician cacheConfig now
            (testType :: restTypes) i store).reports
          = (labLoop endpoints parse validate orderingPhysician cacheConfig now
            restTypes (i + 1) store).reports
        ∧ (labLoop endpoints parse validate orderingPhysician cacheConfig now
            (testType :: restTypes) i store).store
          = (labLoop endpoints parse validate orderingPhysician cacheConfig now
            restTypes (i + 1) store).store) := by
  constructor
  · intro α endpoint parse validate ac cacheConfig store now data errors hmiss hinv hval
    constructor <;> simp [generateIndividualWithAI, hmiss, hinv, hval]
  · intro endpoints parse validate orderingPhysician cacheConfig now testType restTypes
      i store data errors hmiss hinv hval
    constructor <;> simp [labLoop, hmiss, hinv, hval]

/-- Witness for C1: a validator rejecting everything makes the single-doc
orchestrator raise without caching, and makes the batch drop the item. -/
theorem C1_validation_gate_witness :
    ((generateIndividualWithAI endpointObjBody parseSample validateFailJson
          (some acSample) cfgOn ([] : CacheStore Json) 0).result
        = .error ("Patient data generation failed: AI generated invalid patient data: "
            ++ String.intercalate ", " (formatZodErrors [("firstName", "Required")]))
      ∧ (generateIndividualWithAI endpointObjBody parseSample validateFailJson
          (some acSample) cfgOn ([] : CacheStore Json) 0).store = [])
    ∧ ((labLoop endpointsObjBody parseSample validateFailLab "Dr. Lee" cfgOn 0
          ["CBC"] 0 []).reports
        = (labLoop endpointsObjBody parseSample validateFailLab "Dr. Lee" cfgOn 0
          [] 1 []).reports
      ∧ (labLoop endpointsObjBody parseSample validateFailLab "Dr. Lee" cfgOn 0
          ["CBC"] 0 []).store
        = (labLoop endpointsObjBody parseSample validateFailLab "Dr. Lee" cfgOn 0
          [] 1 []).store) :=
  ⟨C1_validation_gate.1 Json endpointObjBody parseSample validateFailJson acSample
      cfgOn [] 0 (Json.obj []) [("firstName", "Required")] rfl rfl rfl,
    C1_validation_gate.2 endpointsObjBody parseSample validateFailLab "Dr. Lee"
      cfgOn 0 "CBC" [] 0 [] (Json.obj []) [("results", "Required")] rfl rfl rfl⟩

/-- C7: in a single-document orchestrator a schema validation failure is
terminal: generateIndividualWithAI performs no model invocation beyond the
one that produced the value (invokerCalls = 1) and immediately raises the
wrapped generator-specific error embedding the formatted field errors. -/
theorem C7_validation_failure_terminal (α : Type) (endpoint : Nat → AttemptResult)
    (parse : String → Option Json) (validate : Json → ValidationOutcome α)
    (ac : AzureOpenAIConfig) (cacheConfig : CacheConfig) (store : CacheStore α)
    (now : Nat) (data : Json) (errors : List (String × String))
    (hmiss : getFromCache cacheConfig store
        (generateCacheKey "generateIndividual" []) now = none)
    (hinv : (generateDataWithAI endpoint parse 3).value = .ok data)
    (hval : validate data = .failure errors) :
    (generateIndividualWithAI endpoint parse validate (some ac) cacheConfig store now).result
        = .error ("Patient data generation failed: AI generated invalid patient data: "
            ++ String.intercalate ", " (formatZodErrors errors))
      ∧ (generateIndividualWithAI endpoint parse validate (some ac) cacheConfig store now).invokerCalls
        = 1 := by
  constructor <;> simp [generateIndividualWithAI, hmiss, hinv, hval]

/-- Witness for C7 at a concrete always-rejecting validator. -/
theorem C7_validation_failure_terminal_witness :
    (generateIndividualWithAI endpointObjBody parseSample validateFailJson
        (some acSample) cfgOn ([] : CacheStore Json) 0).result
      = .error ("Patient data generation failed: AI generated invalid patient data: "
          ++ String.intercalate ", " (formatZodErrors [("firstName", "Required")]))
    ∧ (generateIndividualWithAI endpointObjBody parseSample validateFailJson
        (some acSample) cfgOn ([] : CacheStore Json) 0).invokerCalls = 1 :=
  C7_validation_failure_terminal Json endpointObjBody parseSample validateFailJson
    acSample cfgOn [] 0 (Json.obj []) [("firstName", "Required")] rfl rfl rfl

/-- C9: on a cache hit the cached value is returned (and, in the batch,
appended to the result) verbatim, with neither the Model Invoker nor the
Schema Validator being called on it and with the store unchanged. -/
theorem C9_cache_hit_bypasses_validation :
    (∀ (α : Type) (endpoint : Nat → AttemptResult) (parse : String → Option Json)
        (validate : Json → ValidationOutcome α) (config : Option AzureOpenAIConfig)
        (cacheConfig : CacheConfig) (store : CacheStore α) (now : Nat) (v : α),
      getFromCache cacheConfig store (generateCacheKey "generateIndividual" []) now = some v →
      generateIndividualWithAI endpoint parse validate config cacheConfig store now
        = ⟨.ok v, 0, 0, store⟩)
    ∧
    (∀ (endpoints : Nat → Nat → AttemptResult) (parse : String → Option Json)
        (validate : Json → ValidationOutcome LabReport)
        (orderingPhysician : String) (cacheConfig : CacheConfig) (now : Nat)
        (testType : String) (restTypes : List String) (i : Nat)
        (store : CacheStore LabReport) (v : LabReport),
      getFromCache cacheConfig store
          (generateCacheKey "generateLabReport" [testType, orderingPhysician]) now = some v →
      (labLoop endpoints parse validate orderingPhysician cacheConfig now
            (testType :: restTypes) i store).reports
          = v :: (labLoop endpoints parse validate orderingPhysician cacheConfig now
            restTypes (i + 1) store).reports
        ∧ (labLoop endpoints parse validate orderingPhysician cacheConfig now
            (testType :: restTypes) i store).invokerCalls
          = (labLoop endpoints parse validate orderingPhysician cacheConfig now
            restTypes (i + 1) store).invokerCalls
        ∧ (labLoop endpoints parse validate orderingPhysician cacheConfig now
            (testType :: restTypes) i store).validatorCalls
          = (labLoop endpoints parse validate orderingPhysician cacheConfig now
            restTypes (i + 1) store).validatorCalls
        ∧ (labLoop endpoints parse validate orderingPhysician cacheConfig now
            (testType :: restTypes) i store).store
          = (labLoop endpoints parse validate orderingPhysician cacheConfig now
            restTypes (i + 1) store).store) := by
  constructor
  · intro α endpoint parse validate config cacheConfig store now v hhit
    simp [generateIndividualWithAI, hhit]
  · intro endpoints parse validate orderingPhysician cacheConfig now testType restTypes
      i store v hhit
    refine ⟨?_, ?_, ?_, ?_⟩ <;> simp [labLoop, hhit]

/-- Witness for C9 at stores holding fresh entries for the queried keys. -/
theorem C9_cache_hit_bypasses_validation_witness :
    generateIndividualWithAI endpointObjBody parseSample validateFailJson
        (some acSample) cfgOn storeIndHit 0
      = ⟨.ok (Json.obj []), 0, 0, storeIndHit⟩
    ∧ (labLoop endpointsObjBody parseSample validateFailLab "Dr. Lee" cfgOn 0
          ["CBC"] 0 storeLabHit).reports
      = labReportSample :: (labLoop endpointsObjBody parseSample validateFailLab
          "Dr. Lee" cfgOn 0 [] 1 storeLabHit).reports :=
  ⟨C9_cache_hit_bypasses_validation.1 Json endpointObjBody parseSample
      validateFailJson (some acSample) cfgOn storeIndHit 0 (Json.obj []) rfl,
    (C9_cache_hit_bypasses_validation.2 endpointsObjBody parseSample validateFailLab
      "Dr. Lee" cfgOn 0 "CBC" [] 0 storeLabHit labReportSample rfl).1⟩

/-- C10: when validation succeeds, generateClaimInfoWithAI returns and
caches the raw parsed JSON object handed to validation, whereas
generateIndividualWithAI returns and caches the Schema Validator's typed
output value. -/
theorem C10_claiminfo_caches_raw :
    (∀ (α : Type) (endpoint : Nat → AttemptResult) (parse : String → Option Json)
        (validate : Json → ValidationOutcome α) (individual : Individual)
        (cacheConfig : CacheConfig) (store : CacheStore Json) (now : Nat)
        (data : Json) (c : α),
      getFromCache cacheConfig store
          (generateCacheKey "generateClaimInfo" [individual.id]) now = none →
      (generateDataWithAI endpoint parse 3).value = .ok data →
      validate data = .success c →
      (generateClaimInfoWithAI endpoint parse validate individual cacheConfig store now).result
          = .ok data
        ∧ (generateClaimInfoWithAI endpoint parse validate individual cacheConfig store now).store
          = saveToCache cacheConfig store
              (generateCacheKey "generateClaimInfo" [individual.id]) data now)
    ∧
    (∀ (α : Type) (endpoint : Nat → AttemptResult) (parse : String → Option Json)
        (validate : Json → ValidationOutcome α) (ac : AzureOpenAIConfig)
        (cacheConfig : CacheConfig) (store : CacheStore α) (now : Nat)
        (data : Json) (v : α),
      getFromCache cacheConfig store (generateCacheKey "generateIndividual" []) now = none →
      (generateDataWithAI endpoint parse 3).value = .ok data →
      validate data = .success v →
      (generateIndividualWithAI endpoint parse validate (some ac) cacheConfig store now).result
          = .ok v
        ∧ (generateIndividualWithAI endpoint parse validate (some ac) cacheConfig store now).store
          = saveToCache cacheConfig store (generateCacheKey "generateIndividual" []) v now) := by
  constructor
  · intro α endpoint parse validate individual cacheConfig store now data c hmiss hinv hval
    constructor <;> simp [generateClaimInfoWithAI, hmiss, hinv, hval]
  · intro α endpoint parse validate ac cacheConfig store now data v hmiss hinv hval
    constructor <;> simp [generateIndividualWithAI, hmiss, hinv, hval]

/-- Witness for C10: a validator producing a typed value distinct from the
raw object; the claim orchestrator still returns the raw object, while the
individual orchestrator returns the typed value. -/
theorem C10_claiminfo_caches_raw_witness :
    (generateClaimInfoWithAI endpointObjBody parseSample validateOkString
        individualSample cfgOn ([] : CacheStore Json) 0).result = .ok (Json.obj [])
    ∧ (generateIndividualWithAI endpointObjBody parseSample validateOkString
        (some acSample) cfgOn ([] : CacheStore String) 0).result = .ok "typed" :=
  ⟨(C10_claiminfo_caches_raw.1 String endpointObjBody parseSample validateOkString
      individualSample cfgOn [] 0 (Json.obj []) "typed" rfl rfl rfl).1,
    (C10_claiminfo_caches_raw.2 String endpointObjBody parseSample validateOkString
      acSample cfgOn [] 0 (Json.obj []) "typed" rfl rfl rfl).1⟩

/-- C4: on the generation path, generateInsuranceInfoWithAI consumes exactly
one random draw (randRest = rs), and the 0.7-threshold draw decides the
override atomically: when the draw selects the individual (r < 700 of 1000),
the returned and cached value is overrideSubscriber individual validated,
whose five subscriber-identifying fields all equal the individual's; when
it does not, the validated model-provided value passes through and is cached
unchanged. -/
theorem C4_subscriber_override (endpoint : Nat → AttemptResult)
    (parse : String → Option Json) (validate : Json → ValidationOutcome InsuranceInfo)
    (individual : Individual) (includeSecondary : Bool) (cacheConfig : CacheConfig)
    (store : CacheStore InsuranceInfo) (now : Nat) (r : Nat) (rs : List Nat)
    (data : Json) (validated : InsuranceInfo)
    (hmiss : getFromCache cacheConfig store
        (generateCacheKey "generateInsuranceInfo"
          [individual.id, boolParam includeSecondary]) now = none)
    (hinv : (generateDataWithAI endpoint parse 3).value = .ok data)
    (hval : validate data = .success validated) :
    (generateInsuranceInfoWithAI endpoint parse validate individual includeSecondary
        cacheConfig store now (r :: rs)).randRest = rs
    ∧ (r < 700 →
        (generateInsuranceInfoWithAI endpoint parse validate individual includeSecondary
            cacheConfig store now (r :: rs)).result
          = .ok (overrideSubscriber individual validated)
        ∧ (generateInsuranceInfoWithAI endpoint parse validate individual includeSecondary
            cacheConfig store now (r :: rs)).store
          = saveToCache cacheConfig store
              (generateCacheKey "generateInsuranceInfo"
                [individual.id, boolParam includeSecondary])
              (overrideSubscriber individual validated) now)
    ∧ (¬ r < 700 →
        (generateInsuranceInfoWithAI endpoint parse validate individual includeSecondary
            cacheConfig store now (r :: rs)).result = .ok validated
        ∧ (generateInsuranceInfoWithAI endpoint parse validate individual includeSecondary
            cacheConfig store now (r :: rs)).store
          = saveToCache cacheConfig store
              (generateCacheKey "generateInsuranceInfo"
                [individual.id, boolParam includeSecondary])
              validated now)
    ∧ (overrideSubscriber individual validated).subscriberFirstName = individual.firstName
    ∧ (overrideSubscriber individual validated).subscriberLastName = individual.lastName
    ∧ (overrideSubscriber individual validated).subscriberDOB = individual.dateOfBirth
    ∧ (overrideSubscriber individual validated).subscriberGender = individual.gender
    ∧ (overrideSubscriber individual validated).address = individual.address
    ∧ (overrideSubscriber individual validated).phone = individual.contact.phone := by
  refine ⟨?_, fun hr => ⟨?_, ?_⟩, fun hr => ⟨?_, ?_⟩, rfl, rfl, rfl, rfl, rfl, rfl⟩ <;>
    simp [generateInsuranceInfoWithAI, hmiss, hinv, hval, *]

/-- Witness for C4 with a draw of 0 (selecting the override). -/
theorem C4_subscriber_override_witness :
    (generateInsuranceInfoWithAI endpointObjBody parseSample validateOkIns
        individualSample false cfgOn [] 0 [0]).randRest = []
    ∧ (generateInsuranceInfoWithAI endpointObjBody parseSample validateOkIns
        individualSample false cfgOn [] 0 [0]).result
      = .ok (overrideSubscriber individualSample insuranceSample)
    ∧ (overrideSubscriber individualSample insuranceSample).subscriberFirstName
      = individualSample.firstName :=
  have h := C4_subscriber_override endpointObjBody parseSample validateOkIns
    individualSample false cfgOn [] 0 0 [] (Json.obj []) insuranceSample rfl rfl rfl
  ⟨h.1, (h.2.1 (by decide)).1, h.2.2.2.1⟩

/-- Shape of a generateInsuranceInfoWithAI run on the cache-miss path with a
successful invocation and validation. -/
theorem generateInsuranceInfoWithAI_miss_success (endpoint : Nat → AttemptResult)
    (parse : String → Option Json) (validate : Json → ValidationOutcome InsuranceInfo)
    (individual : Individual) (includeSecondary : Bool) (cacheConfig : CacheConfig)
    (store : CacheStore InsuranceInfo) (now : Nat) (rand : List Nat)
    (data : Json) (validated : InsuranceInfo)
    (hmiss : getFromCache cacheConfig store
        (generateCacheKey "generateInsuranceInfo"
          [individual.id, boolParam includeSecondary]) now = none)
    (hinv : (generateDataWithAI endpoint parse 3).value = .ok data)
    (hval : validate data = .success validated) :
    generateInsuranceInfoWithAI endpoint parse validate individual includeSecondary
        cacheConfig store now rand
      = ⟨.ok (if rand.headD 0 < 700 then overrideSubscriber individual validated
              else validated), 1, 1,
          saveToCache cacheConfig store
            (generateCacheKey "generateInsuranceInfo"
              [individual.id, boolParam includeSecondary])
            (if rand.headD 0 < 700 then overrideSubscriber individual validated
              else validated) now, rand.tail⟩ := by
  by_cases hr : rand.headD 0 < 700 <;>
    simp [generateInsuranceInfoWithAI, hmiss, hinv, hval, hr]

/-- C6: with caching enabled, after a first generateInsuranceInfoWithAI call
for a fixed parameter tuple returns v, a second sequential call for the same
tuple against the resulting store returns v without invoking the model, and
the two calls together invoke the model at most once. -/
theorem C6_cache_idempotence (endpoint endpoint2 : Nat → AttemptResult)
    (parse parse2 : String → Option Json)
    (validate validate2 : Json → ValidationOutcome InsuranceInfo)
    (individual : Individual) (includeSecondary : Bool) (cacheConfig : CacheConfig)
    (store : CacheStore InsuranceInfo) (now : Nat) (rand rand2 : List Nat)
    (v : InsuranceInfo)
    (henabled : cacheConfig.enabled = true)
    (h1 : (generateInsuranceInfoWithAI endpoint parse validate individual
        includeSecondary cacheConfig store now rand).result = .ok v) :
    (generateInsuranceInfoWithAI endpoint2 parse2 validate2 individual includeSecondary
        cacheConfig
        (generateInsuranceInfoWithAI endpoint parse validate individual includeSecondary
          cacheConfig store now rand).store
        now rand2).result = .ok v
    ∧ (generateInsuranceInfoWithAI endpoint2 parse2 validate2 individual includeSecondary
        cacheConfig
        (generateInsuranceInfoWithAI endpoint parse validate individual includeSecondary
          cacheConfig store now rand).store
        now rand2).invokerCalls = 0
    ∧ (generateInsuranceInfoWithAI endpoint parse validate individual includeSecondary
          cacheConfig store now rand).invokerCalls
      + (generateInsuranceInfoWithAI endpoint2 parse2 validate2 individual includeSecondary
          cacheConfig
          (generateInsuranceInfoWithAI endpoint parse validate individual includeSecondary
            cacheConfig store now rand).store
          now rand2).invokerCalls ≤ 1 := by
  cases hg : getFromCache cacheConfig store
      (generateCacheKey "generateInsuranceInfo"
        [individual.id, boolParam includeSecondary]) now with
  | some cached =>
    have e1 : generateInsuranceInfoWithAI endpoint parse validate individual
        includeSecondary cacheConfig store now rand = ⟨.ok cached, 0, 0, store, rand⟩ := by
      simp [generateInsuranceInfoWithAI, hg]
    rw [e1] at h1
    obtain rfl : cached = v := by simpa using h1
    have e2 : generateInsuranceInfoWithAI endpoint2 parse2 validate2 individual
        includeSecondary cacheConfig store now rand2 = ⟨.ok cached, 0, 0, store, rand2⟩ := by
      simp [generateInsuranceInfoWithAI, hg]
    rw [e1]
    exact ⟨by rw [e2], by rw [e2], by rw [e2]; simp⟩
  | none =>
    cases hv : (generateDataWithAI endpoint parse 3).value with
    | error e =>
      have e1 : (generateInsuranceInfoWithAI endpoint parse validate individual
          includeSecondary cacheConfig store now rand).result
          = .error ("Insurance data generation failed: " ++ e) := by
        simp [generateInsuranceInfoWithAI, hg, hv]
      rw [e1] at h1
      exact absurd h1 (by simp)
    | ok data =>
      cases hval : validate data with
      | failure errors =>
        have e1 : (generateInsuranceInfoWithAI endpoint parse validate individual
            includeSecondary cacheConfig store now rand).result
            = .error ("Insurance data generation failed: AI generated invalid insurance data: "
                ++ String.intercalate ", " (formatZodErrors errors)) := by
          simp [generateInsuranceInfoWithAI, hg, hv, hval]
        rw [e1] at h1
        exact absurd h1 (by simp)
      | success validated =>
        have e1 := generateInsuranceInfoWithAI_miss_success endpoint parse validate
          individual includeSecondary cacheConfig store now rand data validated hg hv hval
        rw [e1] at h1
        have hvd : (if rand.headD 0 < 700 then overrideSubscriber individual validated
            else validated) = v := by simpa using h1
        rw [e1, hvd]
        have hgf := getFromCache_saveToCache cacheConfig store
          (generateCacheKey "generateInsuranceInfo"
            [individual.id, boolParam includeSecondary]) v now henabled
        have e2 : generateInsuranceInfoWithAI endpoint2 parse2 validate2 individual
            includeSecondary cacheConfig
            (saveToCache cacheConfig store
              (generateCacheKey "generateInsuranceInfo"
                [individual.id, boolParam includeSecondary]) v now)
            now rand2
            = ⟨.ok v, 0, 0,
                saveToCache cacheConfig store
                  (generateCacheKey "generateInsuranceInfo"
                    [individual.id, boolParam includeSecondary]) v now, rand2⟩ := by
          simp [generateInsuranceInfoWithAI, hgf]
        exact ⟨by rw [e2], by rw [e2], by rw [e2]; simp⟩

/-- Witness for C6: a first run that generates and caches, then a second run
from the resulting store that answers from the cache. -/
theorem C6_cache_idempotence_witness :
    (generateInsuranceInfoWithAI endpointBoom parseNone validateOkIns individualSample
        false cfgOn
        (generateInsuranceInfoWithAI endpointObjBody parseSample validateOkIns
          individualSample false cfgOn [] 0 [0]).store
        0 []).result = .ok (overrideSubscriber individualSample insuranceSample)
    ∧ (generateInsuranceInfoWithAI endpointObjBody parseSample validateOkIns
          individualSample false cfgOn [] 0 [0]).invokerCalls
      + (generateInsuranceInfoWithAI endpointBoom parseNone validateOkIns individualSample
          false cfgOn
          (generateInsuranceInfoWithAI endpointObjBody parseSample validateOkIns
            individualSample false cfgOn [] 0 [0]).store
          0 []).invokerCalls ≤ 1 :=
  have h := C6_cache_idempotence endpointObjBody endpointBoom parseSample parseNone
    validateOkIns validateOkIns individualSample false cfgOn [] 0 [0] []
    (overrideSubscriber individualSample insuranceSample) rfl rfl
  ⟨h.1, h.2.2⟩

/-- The reports produced by the lab-report batch loop are exactly the
per-item outcome slots with the dropped items filtered out, and there is one
slot per requested test type. -/
theorem labLoop_eq_filterMap_slots (endpoints : Nat → Nat → AttemptResult)
    (parse : String → Option Json) (validate : Json → ValidationOutcome LabReport)
    (orderingPhysician : String) (cacheConfig : CacheConfig) (now : Nat) :
    ∀ (ts : List String) (i : Nat) (store : CacheStore LabReport),
      (labLoop endpoints parse validate orderingPhysician cacheConfig now ts i store).reports
        = (labSlots endpoints parse validate orderingPhysician cacheConfig now
            ts i store).filterMap id
      ∧ (labSlots endpoints parse validate orderingPhysician cacheConfig now
          ts i store).length = ts.length := by
  intro ts
  induction ts with
  | nil => intro i store; simp [labLoop, labSlots]
  | cons t rest ih =>
    intro i store
    cases hg : getFromCache cacheConfig store
        (generateCacheKey "generateLabReport" [t, orderingPhysician]) now with
    | some cached =>
      obtain ⟨ih1, ih2⟩ := ih (i + 1) store
      constructor <;> simp [labLoop, labSlots, hg, ih1, ih2]
    | none =>
      cases hv : (generateDataWithAI (endpoints i) parse 3).value with
      | error e =>
        obtain ⟨ih1, ih2⟩ := ih (i + 1) store
        constructor <;> simp [labLoop, labSlots, hg, hv, ih1, ih2]
      | ok data =>
        cases hval : validate data with
        | failure errors =>
          obtain ⟨ih1, ih2⟩ := ih (i + 1) store
          constructor <;> simp [labLoop, labSlots, hg, hv, hval, ih1, ih2]
        | success validatedReport =>
          obtain ⟨ih1, ih2⟩ := ih (i + 1)
            (saveToCache cacheConfig store
              (generateCacheKey "generateLabReport" [t, orderingPhysician])
              (fixTestType t validatedReport) now)
          constructor <;> simp [labLoop, labSlots, hg, hv, hval, ih1, ih2]

/-- The reports produced by the visit-report batch loop are exactly the
per-item outcome slots with the dropped items filtered out, and there is one
slot per requested visit. -/
theorem visitLoop_eq_filterMap_slots (endpoints : Nat → Nat → AttemptResult)
    (parse : String → Option Json) (validate : Json → ValidationOutcome β)
    (providerName : String) (cacheConfig : CacheConfig) (now : Nat) :
    ∀ (n i : Nat) (store : CacheStore β),
      (visitLoop endpoints parse validate providerName cacheConfig now n i store).reports
        = (visitSlots endpoints parse validate providerName cacheConfig now
            n i store).filterMap id
      ∧ (visitSlots endpoints parse validate providerName cacheConfig now
          n i store).length = n := by
  intro n
  induction n with
  | zero => intro i store; simp [visitLoop, visitSlots]
  | succ m ih =>
    intro i store
    cases hg : getFromCache cacheConfig store
        (generateCacheKey "generateVisitReport" [toString i, providerName]) now with
    | some cached =>
      obtain ⟨ih1, ih2⟩ := ih (i + 1) store
      constructor <;> simp [visitLoop, visitSlots, hg, ih1, ih2]
    | none =>
      cases hv : (generateDataWithAI (endpoints i) parse 3).value with
      | error e =>
        obtain ⟨ih1, ih2⟩ := ih (i + 1) store
        constructor <;> simp [visitLoop, visitSlots, hg, hv, ih1, ih2]
      | ok data =>
        cases hval : validate data with
        | failure errors =>
          obtain ⟨ih1, ih2⟩ := ih (i + 1) store
          constructor <;> simp [visitLoop, visitSlots, hg, hv, hval, ih1, ih2]
        | success validatedData =>
          obtain ⟨ih1, ih2⟩ := ih (i + 1)
            (saveToCache cacheConfig store
              (generateCacheKey "generateVisitReport" [toString i, providerName])
              validatedData now)
          constructor <;> simp [visitLoop, visitSlots, hg, hv, hval, ih1, ih2]

/-- C5: each batch orchestrator returns exactly the per-item successes in
request order: its report list equals the slot list (one slot per requested
item, none for a dropped item) with failures filtered out.  This holds for
every endpoint and validator behaviour, including ones failing on every
item, so a per-item failure is dropped, processing continues with the next
item, the batch itself never raises, and the relative order of the
originating requests is preserved among the successes. -/
theorem C5_batch_partial_failure :
    (∀ (endpoints : Nat → Nat → AttemptResult) (parse : String → Option Json)
        (validate : Json → ValidationOutcome LabReport) (testTypes : List String)
        (orderingPhysician : String) (cacheConfig : CacheConfig)
        (store : CacheStore LabReport) (now : Nat),
      (generateLabReportsWithAI endpoints parse validate testTypes orderingPhysician
          cacheConfig store now).reports
        = (labSlots endpoints parse validate orderingPhysician cacheConfig now
            testTypes 0 store).filterMap id
      ∧ (labSlots endpoints parse validate orderingPhysician cacheConfig now
          testTypes 0 store).length = testTypes.length)
    ∧
    (∀ (β : Type) (endpoints : Nat → Nat → AttemptResult) (parse : String → Option Json)
        (validate : Json → ValidationOutcome β) (numberOfVisits : Nat)
        (providerName : String) (cacheConfig : CacheConfig) (store : CacheStore β)
        (now : Nat),
      (generateVisitReportsWithAI endpoints parse validate numberOfVisits providerName
          cacheConfig store now).reports
        = (visitSlots endpoints parse validate providerName cacheConfig now
            numberOfVisits 0 store).filterMap id
      ∧ (visitSlots endpoints parse validate providerName cacheConfig now
          numberOfVisits 0 store).length = numberOfVisits) :=
  ⟨fun endpoints parse validate testTypes orderingPhysician cacheConfig store now =>
      labLoop_eq_filterMap_slots endpoints parse validate orderingPhysician cacheConfig
        now testTypes 0 store,
    fun _ endpoints parse validate numberOfVisits providerName cacheConfig store now =>
      visitLoop_eq_filterMap_slots endpoints parse validate providerName cacheConfig
        now numberOfVisits 0 store⟩

end DocGen
